import Mathlib

/-!
Verification of the OpenDocQA frontend core against its specification.

Two controllers are embedded from the source:

* the Paginated Collection Loader (the DocumentList component): state
  `documents / isLoading / error / page / hasMore` and the operation
  `fetchDocuments`, split into its success and failure completions plus the
  Load More click that advances the page counter and starts a fetch;
* the Document Detail Orchestrator (the DocumentViewer component): state
  `documentId / activeTab / documentInfo / summary / keyPoints / query /
  queryResponse / isLoading / isQuerying / error` and the operations
  `fetchDocumentInfo`, `fetchSummary`, `fetchKeyPoints`, `handleQuerySubmit`
  and the tab-driven fetch effect.

Asynchronous fetches are modelled atomically: one event covers the request
being issued and its completion (success carrying the parsed response, or
failure covering both network errors and non-2xx statuses).  Numeric payload
fields that the code only displays (processing times, relevance scores) are
modelled as `Nat`; no claim computes with them.
-/

/-- Outcome of one HTTP fetch: a parsed successful response, or a failure
(network error or non-2xx status, which the source treats identically by
throwing into the surrounding catch block). -/
inductive FetchOutcome (α : Type) where
  | success (data : α)
  | failure
deriving DecidableEq

/-- A document entry as returned by the listing endpoint (the `Document`
interface of the DocumentList component). -/
structure Document where
  document_id : String
  filename : String
  upload_time : String
  file_size : Nat
  content_type : String
  processing_complete : Bool
  processing_error : Option String
deriving DecidableEq

/-- State of the Paginated Collection Loader (the useState hooks of the
DocumentList component).  `lastPageLen` is an auxiliary history variable that
is not a source variable: it records the entry count of the most recently
successfully loaded page, and is written exactly when the source stores a
successful response.  It is used only to state the exhaustion invariant. -/
structure DLState where
  documents : List Document
  isLoading : Bool
  error : Option String
  page : Nat
  hasMore : Bool
  lastPageLen : Option Nat
deriving DecidableEq

/-- Initial hook values of the DocumentList component: empty list, loading
true (the mount effect immediately starts the page-1 fetch), no error,
page 1, hasMore true, no page loaded yet. -/
def DLState.init : DLState :=
  { documents := []
    isLoading := true
    error := none
    page := 1
    hasMore := true
    lastPageLen := none }

/-- Successful completion of `fetchDocuments`: the source clears the error at
fetch start, sets `hasMore` to false when the page is undersized (it never
writes true), replaces the list when `page == 1` and appends otherwise, and
clears the loading flag in the finally block.  `limit` is the page size
constant of the component (10 in the source). -/
def fetchDocumentsSuccess (limit : Nat) (s : DLState) (docs : List Document) : DLState :=
  { s with
    error := none
    hasMore := if docs.length < limit then false else s.hasMore
    documents := if s.page = 1 then docs else s.documents ++ docs
    isLoading := false
    lastPageLen := some docs.length }

/-- Failing completion of `fetchDocuments` (network error or non-2xx status):
the catch block stores the fixed message; `documents`, `page`, `hasMore` and
`lastPageLen` are untouched, and the finally block clears the loading flag. -/
def fetchDocumentsFailure (s : DLState) : DLState :=
  { s with
    error := some "Failed to load documents. Please try again."
    isLoading := false }

/-- The Load More click: `setPage(prev => prev + 1)`, which re-triggers the
page effect, whose fetch immediately sets loading and clears the error. -/
def clickLoadMore (s : DLState) : DLState :=
  { s with page := s.page + 1, isLoading := true, error := none }

/-- Events of the loader.  `loadMore` is the user clicking the Load More
button; `success` and `failure` are completions of the in-flight fetch. -/
inductive DLEvent where
  | loadMore
  | success (docs : List Document)
  | failure
deriving DecidableEq

/-- One step of the loader.  The Load More button is rendered only while
`hasMore` holds and no fetch is loading, and a completion can only arrive
while a fetch is in flight; an event whose guard fails changes nothing. -/
def dlStep (limit : Nat) (s : DLState) : DLEvent → DLState
  | .loadMore => if s.hasMore && !s.isLoading then clickLoadMore s else s
  | .success docs => if s.isLoading then fetchDocumentsSuccess limit s docs else s
  | .failure => if s.isLoading then fetchDocumentsFailure s else s

/-- Run of the loader over a list of events. -/
def dlRun (limit : Nat) (s : DLState) : List DLEvent → DLState
  | [] => s
  | e :: es => dlRun limit (dlStep limit s e) es

/-- Sequential successful loads: each page arrives successfully and the user
clicks Load More to advance to the next page.  Starting from `page = 1` this
loads pages 1, 2, ... in order. -/
def loadPages (limit : Nat) (s : DLState) : List (List Document) → DLState
  | [] => s
  | docs :: rest => loadPages limit (clickLoadMore (fetchDocumentsSuccess limit s docs)) rest

/-- States of one loader instance reachable from mount: the page-1 fetch is
in flight initially; Load More requires `hasMore` and no fetch in flight;
completions require a fetch in flight. -/
inductive DLReachable (limit : Nat) : DLState → Prop where
  | init : DLReachable limit DLState.init
  | loadMore (s : DLState) : DLReachable limit s → s.hasMore = true → s.isLoading = false →
      DLReachable limit (clickLoadMore s)
  | success (s : DLState) (docs : List Document) : DLReachable limit s → s.isLoading = true →
      DLReachable limit (fetchDocumentsSuccess limit s docs)
  | failure (s : DLState) : DLReachable limit s → s.isLoading = true →
      DLReachable limit (fetchDocumentsFailure s)

/-- The three tabs of the DocumentViewer component. -/
inductive DVTab where
  | summary
  | keyPoints
  | query
deriving DecidableEq

/-- The `DocumentInfo` interface of the DocumentViewer component (metadata of
one document; the DocumentDetail of the specification). -/
structure DocumentInfo where
  document_id : String
  filename : String
  upload_time : String
  file_size : Nat
  content_type : String
  text_length : Option Nat
  has_docling_data : Bool
  processing_complete : Bool
  processing_time : Option Nat
  processing_error : Option String
deriving DecidableEq

/-- The `Summary` interface (the SummaryArtifact of the specification). -/
structure Summary where
  document_id : String
  summary : String
  processed_with_docling : Bool
  processing_time : Nat
  tokens_used : Option Nat
deriving DecidableEq

/-- One key point of the `KeyPointsResponse` interface. -/
structure KeyPoint where
  point : String
  relevance : Option Nat
deriving DecidableEq

/-- The `KeyPointsResponse` interface (the KeyPointsArtifact). -/
structure KeyPointsResponse where
  document_id : String
  key_points : List KeyPoint
  processed_with_docling : Bool
  processing_time : Nat
  tokens_used : Option Nat
deriving DecidableEq

/-- State of the Document Detail Orchestrator: the route parameter
`documentId` plus the useState hooks of the DocumentViewer component. -/
structure DVState where
  documentId : Option String
  activeTab : DVTab
  documentInfo : Option DocumentInfo
  summary : Option Summary
  keyPoints : Option KeyPointsResponse
  query : String
  queryResponse : Option String
  isLoading : Bool
  isQuerying : Bool
  error : Option String
deriving DecidableEq

/-- Initial hook values of the DocumentViewer component for a given route
parameter: summary tab active, nothing fetched, loading true (the mount
effect immediately starts the metadata fetch). -/
def DVState.init (docId : Option String) : DVState :=
  { documentId := docId
    activeTab := .summary
    documentInfo := none
    summary := none
    keyPoints := none
    query := ""
    queryResponse := none
    isLoading := true
    isQuerying := false
    error := none }

/-- The `documentInfo?.processing_complete` test: true exactly when metadata
is present and reports processing complete (optional chaining yields
undefined, hence falsy, when metadata is null). -/
def docInfoComplete (s : DVState) : Bool :=
  match s.documentInfo with
  | some info => info.processing_complete
  | none => false

/-- The eligibility guard shared by all three derived fetchers, the positive
form of the source test `!documentId || !documentInfo?.processing_complete`:
an identifier is present and stored metadata reports processing complete. -/
def eligible (s : DVState) : Bool :=
  s.documentId.isSome && docInfoComplete s

/-- `fetchDocumentInfo`: guarded only on the identifier being present.  On
success the response replaces the stored metadata wholesale and the error is
left cleared; on failure the catch block stores the generic message and the
stored metadata is untouched.  The returned flag records whether an HTTP
request was issued. -/
def fetchDocumentInfo (s : DVState) (o : FetchOutcome DocumentInfo) : DVState × Bool :=
  if s.documentId.isSome then
    match o with
    | .success data => ({ s with documentInfo := some data, error := none, isLoading := false }, true)
    | .failure =>
        ({ s with error := some "Failed to load document information.", isLoading := false }, true)
  else (s, false)

/-- `fetchSummary`: re-checks the eligibility guard at fetch time and
returns without any request or state change when it fails.  On success the
response is stored as the summary artifact; on failure only the error
message is set. -/
def fetchSummary (s : DVState) (o : FetchOutcome Summary) : DVState × Bool :=
  if eligible s then
    match o with
    | .success data => ({ s with summary := some data, error := none, isLoading := false }, true)
    | .failure =>
        ({ s with error := some "Failed to load document summary.", isLoading := false }, true)
  else (s, false)

/-- `fetchKeyPoints`: same guard and shape as `fetchSummary`, storing the
key-points artifact. -/
def fetchKeyPoints (s : DVState) (o : FetchOutcome KeyPointsResponse) : DVState × Bool :=
  if eligible s then
    match o with
    | .success data => ({ s with keyPoints := some data, error := none, isLoading := false }, true)
    | .failure =>
        ({ s with error := some "Failed to load document key points.", isLoading := false }, true)
  else (s, false)

/-- The JavaScript `String.prototype.trim` used by the query guard: the
input with leading and trailing whitespace removed, as an executable
function on the underlying character list. -/
def jsTrim (s : String) : String :=
  String.mk (((s.data.dropWhile Char.isWhitespace).reverse.dropWhile Char.isWhitespace).reverse)

/-- `handleQuerySubmit`: returns without any request or state change unless
the query text trims to a non-empty string and the eligibility guard holds.
On success the answer replaces the previous one; on failure only the error
message is set. -/
def handleQuerySubmit (s : DVState) (o : FetchOutcome String) : DVState × Bool :=
  if !(jsTrim s.query == "") && eligible s then
    match o with
    | .success resp =>
        ({ s with queryResponse := some resp, error := none, isQuerying := false }, true)
    | .failure => ({ s with error := some "Failed to query the document.", isQuerying := false }, true)
  else (s, false)

/-- The kinds of HTTP request the orchestrator can issue. -/
inductive Req where
  | infoR
  | summaryR
  | keyPointsR
  | queryR
deriving DecidableEq

/-- The tab-driven fetch effect of the DocumentViewer component: when stored
metadata reports processing complete, the summary tab fetches the summary and
the key-points tab fetches the key points; the query tab fetches nothing
automatically.  Returns the new state and the requests issued. -/
def tabFetchEffect (s : DVState) (so : FetchOutcome Summary) (ko : FetchOutcome KeyPointsResponse) :
    DVState × List Req :=
  if docInfoComplete s then
    match s.activeTab with
    | .summary =>
        let r := fetchSummary s so
        (r.1, if r.2 then [Req.summaryR] else [])
    | .keyPoints =>
        let r := fetchKeyPoints s ko
        (r.1, if r.2 then [Req.keyPointsR] else [])
    | .query => (s, [])
  else (s, [])

/-- Events of the orchestrator.  `infoResult` is a metadata fetch (mount, or
re-run of the metadata effect) completing; `tabEffectFire` is a run of the
tab fetch effect caused by a dependency change (for example new metadata);
`selectTab` is the user clicking a tab, which re-runs the tab effect exactly
when the tab actually changes; `querySubmit` is an explicit query submission;
`setQueryText` edits the query input; `changeDoc` is a route navigation that
changes the document identifier (the component state persists across it). -/
inductive DVEvent where
  | infoResult (o : FetchOutcome DocumentInfo)
  | tabEffectFire (so : FetchOutcome Summary) (ko : FetchOutcome KeyPointsResponse)
  | selectTab (t : DVTab) (so : FetchOutcome Summary) (ko : FetchOutcome KeyPointsResponse)
  | querySubmit (o : FetchOutcome String)
  | setQueryText (q : String)
  | changeDoc (i : String)
deriving DecidableEq

/-- One step of the orchestrator, returning the requests issued by the
event.  Selecting the already-active tab leaves the dependency array of the
tab effect unchanged, so the effect does not re-run and nothing is fetched. -/
def dvStep (s : DVState) : DVEvent → DVState × List Req
  | .infoResult o =>
      let r := fetchDocumentInfo s o
      (r.1, if r.2 then [Req.infoR] else [])
  | .tabEffectFire so ko => tabFetchEffect s so ko
  | .selectTab t so ko =>
      if t = s.activeTab then (s, [])
      else tabFetchEffect { s with activeTab := t } so ko
  | .querySubmit o =>
      let r := handleQuerySubmit s o
      (r.1, if r.2 then [Req.queryR] else [])
  | .setQueryText q => ({ s with query := q }, [])
  | .changeDoc i => ({ s with documentId := some i }, [])

/-- Run of the orchestrator over a list of events, accumulating the issued
requests in order. -/
def dvRun (s : DVState) : List DVEvent → DVState × List Req
  | [] => (s, [])
  | e :: es =>
      let r := dvStep s e
      let rest := dvRun r.1 es
      (rest.1, r.2 ++ rest.2)

/-- The summary artifact carried by an event, when the event is a summary
fetch completing successfully with that artifact. -/
def summaryPayload : DVEvent → Option Summary
  | .tabEffectFire (.success x) _ => some x
  | .selectTab _ (.success x) _ => some x
  | _ => none

/-- A concrete listing entry used to instantiate theorems. -/
def docA : Document :=
  { document_id := "d1"
    filename := "a.pdf"
    upload_time := "2024-01-01"
    file_size := 100
    content_type := "application/pdf"
    processing_complete := true
    processing_error := none }

/-- A second concrete listing entry. -/
def docB : Document :=
  { document_id := "d2"
    filename := "b.txt"
    upload_time := "2024-01-02"
    file_size := 200
    content_type := "text/plain"
    processing_complete := false
    processing_error := none }

theorem loadPages_append (limit : Nat) :
    ∀ (Ls : List (List Document)) (s : DLState), 2 ≤ s.page →
      (loadPages limit s Ls).documents = s.documents ++ Ls.flatten := by
  intro Ls
  induction Ls with
  | nil => intro s _; simp [loadPages]
  | cons L Ls ih =>
      intro s h
      have h1 : s.page ≠ 1 := by omega
      have h2 : 2 ≤ (clickLoadMore (fetchDocumentsSuccess limit s L)).page := by
        simp [clickLoadMore, fetchDocumentsSuccess]
        omega
      simp only [loadPages]
      rw [ih _ h2]
      simp [clickLoadMore, fetchDocumentsSuccess, h1]

/-- Claim C3: after successful sequential loads of pages 1..k, the
accumulated document list is exactly the concatenation of the pages in fetch
order; a page-1 load replaces any existing accumulated list and a load of any
later page appends its entries in received order.  The accumulation logic
never reads the page size, so this holds for every `limit`. -/
theorem accumulated_list_is_concat (limit : Nat) (s : DLState) (docs L : List Document)
    (Ls : List (List Document)) :
    (s.page = 1 → (fetchDocumentsSuccess limit s docs).documents = docs) ∧
    (s.page ≠ 1 → (fetchDocumentsSuccess limit s docs).documents = s.documents ++ docs) ∧
    (s.page = 1 → (loadPages limit s (L :: Ls)).documents = L ++ Ls.flatten) := by
  refine ⟨?_, ?_, ?_⟩
  · intro h1
    simp [fetchDocumentsSuccess, h1]
  · intro h1
    simp [fetchDocumentsSuccess, h1]
  · intro h1
    have h2 : 2 ≤ (clickLoadMore (fetchDocumentsSuccess limit s L)).page := by
      simp [clickLoadMore, fetchDocumentsSuccess]
      omega
    simp only [loadPages]
    rw [loadPages_append limit Ls _ h2]
    simp [clickLoadMore, fetchDocumentsSuccess, h1]

/-- Witness for C3: loading page 1 = [docA] then page 2 = [docB] from the
initial state accumulates exactly [docA, docB]. -/
theorem accumulated_list_is_concat_witness :
    (loadPages 10 DLState.init [[docA], [docB]]).documents = [docA] ++ [[docB]].flatten :=
  (accumulated_list_is_concat 10 DLState.init [] [docA] [[docB]]).2.2 rfl

theorem dl_loading_hasMore_aux (limit : Nat) (s : DLState) (h : DLReachable limit s) :
    (s.isLoading = true → s.hasMore = true) ∧
    (s.hasMore = false ↔ ∃ n, s.lastPageLen = some n ∧ n < limit) := by
  induction h with
  | init => simp [DLState.init]
  | loadMore s hr hM hL ih =>
      constructor
      · intro _
        simpa [clickLoadMore] using hM
      · simpa [clickLoadMore] using ih.2
  | success s docs hr hL ih =>
      have hM : s.hasMore = true := ih.1 hL
      constructor
      · intro hcontra
        simp [fetchDocumentsSuccess] at hcontra
      · by_cases hlt : docs.length < limit
        · simp [fetchDocumentsSuccess, hlt]
        · simp [fetchDocumentsSuccess, hlt, hM]
  | failure s hr hL ih =>
      constructor
      · intro hcontra
        simp [fetchDocumentsFailure] at hcontra
      · simpa [fetchDocumentsFailure] using ih.2

/-- Claim C4: `hasMore` starts true, and in every state reachable through
loader events it is false exactly when the most recently successfully loaded
page contained strictly fewer than `limit` entries (recorded by the history
variable `lastPageLen`). -/
theorem hasMore_iff_undersized_last_page (limit : Nat) (s : DLState)
    (h : DLReachable limit s) :
    DLState.init.hasMore = true ∧
    (s.hasMore = false ↔ ∃ n, s.lastPageLen = some n ∧ n < limit) :=
  ⟨rfl, (dl_loading_hasMore_aux limit s h).2⟩

/-- Witness for C4 at the initial state with the source page size 10. -/
theorem hasMore_iff_undersized_last_page_witness :
    DLState.init.hasMore = true ∧
    (DLState.init.hasMore = false ↔ ∃ n, DLState.init.lastPageLen = some n ∧ n < 10) :=
  hasMore_iff_undersized_last_page 10 DLState.init DLReachable.init

/-- Claim C5: a failing page load stores exactly the fixed user-facing
message and leaves both the accumulated list and `hasMore` unchanged. -/
theorem load_failure_message_and_frame (s : DLState) :
    (fetchDocumentsFailure s).error = some "Failed to load documents. Please try again." ∧
    (fetchDocumentsFailure s).documents = s.documents ∧
    (fetchDocumentsFailure s).hasMore = s.hasMore :=
  ⟨rfl, rfl, rfl⟩

theorem dlStep_hasMore_false (limit : Nat) (s : DLState) (e : DLEvent)
    (h : s.hasMore = false) : (dlStep limit s e).hasMore = false := by
  cases e with
  | loadMore => simp [dlStep, h]
  | success docs =>
      by_cases hl : s.isLoading
      · simp only [dlStep, hl, if_true, fetchDocumentsSuccess]
        split <;> simp [h]
      · simp [dlStep, hl, h]
  | failure =>
      by_cases hl : s.isLoading
      · simp [dlStep, hl, fetchDocumentsFailure, h]
      · simp [dlStep, hl, h]

/-- Claim C10: `hasMore` is initialized to true and the only write the loader
ever performs sets it to false, so once it is false no sequence of further
events (page loads succeeding or failing, Load More clicks) makes it true
again. -/
theorem hasMore_monotone :
    DLState.init.hasMore = true ∧
    ∀ (limit : Nat) (s : DLState) (es : List DLEvent),
      s.hasMore = false → (dlRun limit s es).hasMore = false := by
  refine ⟨rfl, ?_⟩
  intro limit s es h
  induction es generalizing s with
  | nil => exact h
  | cons e es ih => exact ih _ (dlStep_hasMore_false limit s e h)

/-- A loader state whose `hasMore` is already false, used to instantiate the
monotonicity theorem. -/
def dlNoMore : DLState :=
  { documents := [docA]
    isLoading := true
    error := none
    page := 2
    hasMore := false
    lastPageLen := some 1 }

/-- Witness for C10: from a state with `hasMore = false`, a further load
cycle leaves it false. -/
theorem hasMore_monotone_witness :
    (dlRun 10 dlNoMore [DLEvent.success [docB], DLEvent.loadMore, DLEvent.failure]).hasMore
      = false :=
  hasMore_monotone.2 10 dlNoMore [DLEvent.success [docB], DLEvent.loadMore, DLEvent.failure] rfl

/-- Concrete metadata for a fully processed document `doc-1`. -/
def infoA : DocumentInfo :=
  { document_id := "doc-1"
    filename := "a.pdf"
    upload_time := "2024-01-01"
    file_size := 100
    content_type := "application/pdf"
    text_length := some 1000
    has_docling_data := true
    processing_complete := true
    processing_time := some 2
    processing_error := none }

/-- A concrete summary artifact belonging to `doc-1`. -/
def sumA : Summary :=
  { document_id := "doc-1"
    summary := "about doc-1"
    processed_with_docling := true
    processing_time := 1
    tokens_used := none }

/-- A concrete key-points artifact belonging to `doc-1`. -/
def kpA : KeyPointsResponse :=
  { document_id := "doc-1"
    key_points := [{ point := "p1", relevance := none }]
    processed_with_docling := true
    processing_time := 1
    tokens_used := none }

/-- A concrete orchestrator state with `doc-1` loaded, processing complete,
all three artifacts present, the query tab active and non-empty query text. -/
def sEligible : DVState :=
  { documentId := some "doc-1"
    activeTab := .query
    documentInfo := some infoA
    summary := some sumA
    keyPoints := some kpA
    query := "q"
    queryResponse := some "ans"
    isLoading := false
    isQuerying := false
    error := none }

theorem eligible_setTab (s : DVState) (t : DVTab) :
    eligible { s with activeTab := t } = eligible s := rfl

theorem docInfoComplete_setTab (s : DVState) (t : DVTab) :
    docInfoComplete { s with activeTab := t } = docInfoComplete s := rfl

/-- Claim C1: each derived fetcher re-checks the eligibility guard (document
identifier present and stored metadata reporting processing complete) at
fetch time and no-ops, with no request and no state change, when it fails;
conversely a derived request is issued only when the guard holds, and at the
orchestrator level no event of an ineligible state issues anything but a
metadata request — in particular no derived request regardless of the active
tab. -/
theorem derived_fetch_guard (s : DVState) (so : FetchOutcome Summary)
    (ko : FetchOutcome KeyPointsResponse) (qo : FetchOutcome String) (e : DVEvent) :
    (eligible s = false →
      fetchSummary s so = (s, false) ∧ fetchKeyPoints s ko = (s, false) ∧
        handleQuerySubmit s qo = (s, false)) ∧
    ((fetchSummary s so).2 = true → eligible s = true) ∧
    ((fetchKeyPoints s ko).2 = true → eligible s = true) ∧
    ((handleQuerySubmit s qo).2 = true → eligible s = true) ∧
    (eligible s = false → ∀ r ∈ (dvStep s e).2, r = Req.infoR) := by
  refine ⟨?_, ?_, ?_, ?_, ?_⟩
  · intro h
    refine ⟨?_, ?_, ?_⟩ <;> simp [fetchSummary, fetchKeyPoints, handleQuerySubmit, h]
  · intro h2
    cases he : eligible s with
    | true => rfl
    | false => simp [fetchSummary, he] at h2
  · intro h2
    cases he : eligible s with
    | true => rfl
    | false => simp [fetchKeyPoints, he] at h2
  · intro h2
    cases he : eligible s with
    | true => rfl
    | false => simp [handleQuerySubmit, he] at h2
  · intro h r hr
    cases e with
    | infoResult o =>
        by_cases hb : (fetchDocumentInfo s o).2 <;> simp [dvStep, hb] at hr
        exact hr
    | tabEffectFire so' ko' =>
        by_cases hc : docInfoComplete s
        · cases ht : s.activeTab <;>
            simp [dvStep, tabFetchEffect, hc, ht, fetchSummary, fetchKeyPoints, h] at hr
        · simp [dvStep, tabFetchEffect, hc] at hr
    | selectTab t so' ko' =>
        by_cases hteq : t = s.activeTab
        · simp [dvStep, hteq] at hr
        · by_cases hc : docInfoComplete s
          · cases t <;>
              simp [dvStep, hteq, tabFetchEffect, docInfoComplete_setTab, hc,
                fetchSummary, fetchKeyPoints, eligible_setTab, h] at hr
          · simp [dvStep, hteq, tabFetchEffect, docInfoComplete_setTab, hc] at hr
    | querySubmit o => simp [dvStep, handleQuerySubmit, h] at hr
    | setQueryText q => simp [dvStep] at hr
    | changeDoc i => simp [dvStep] at hr

/-- Witness for C1: in the freshly mounted state (no metadata yet) the guard
fails and a summary fetch attempt changes nothing and issues no request. -/
theorem derived_fetch_guard_witness :
    eligible (DVState.init (some "doc-1")) = false ∧
    fetchSummary (DVState.init (some "doc-1")) .failure = (DVState.init (some "doc-1"), false) :=
  ⟨rfl,
    ((derived_fetch_guard (DVState.init (some "doc-1")) .failure .failure .failure
      (.setQueryText "x")).1 rfl).1⟩

/-- Claim C9: a submission whose query text trims to the empty string issues
no request and changes no state; a query request is issued only when the
trimmed text is non-empty and the eligibility guard holds. -/
theorem empty_query_is_noop (s : DVState) (o : FetchOutcome String) :
    (jsTrim s.query = "" → handleQuerySubmit s o = (s, false)) ∧
    ((handleQuerySubmit s o).2 = true → jsTrim s.query ≠ "" ∧ eligible s = true) := by
  constructor
  · intro h
    simp [handleQuerySubmit, h]
  · intro hIss
    cases hc : (!(jsTrim s.query == "") && eligible s) with
    | false => simp [handleQuerySubmit, hc] at hIss
    | true =>
        rw [Bool.and_eq_true] at hc
        refine ⟨?_, hc.2⟩
        have h1 := hc.1
        simp at h1
        exact h1

/-- A concrete orchestrator state whose query text is whitespace only. -/
def sWhitespaceQuery : DVState :=
  { sEligible with query := "   " }

/-- Witness for C9: submitting the whitespace-only query is a no-op even in
an otherwise fully eligible state. -/
theorem empty_query_is_noop_witness :
    handleQuerySubmit sWhitespaceQuery (.success "resp") = (sWhitespaceQuery, false) :=
  (empty_query_is_noop sWhitespaceQuery (.success "resp")).1 (by decide)

/-- Claim C7: a failing summary, key-points or query fetch stores an error
message specific to the operation that failed (the three messages are
pairwise distinct) and leaves every stored artifact — summary, key points and
query answer — exactly as it was. -/
theorem tab_scoped_error_frame (s : DVState) (h : eligible s = true) :
    ((fetchSummary s .failure).1.error = some "Failed to load document summary." ∧
      (fetchSummary s .failure).1.summary = s.summary ∧
      (fetchSummary s .failure).1.keyPoints = s.keyPoints ∧
      (fetchSummary s .failure).1.queryResponse = s.queryResponse) ∧
    ((fetchKeyPoints s .failure).1.error = some "Failed to load document key points." ∧
      (fetchKeyPoints s .failure).1.summary = s.summary ∧
      (fetchKeyPoints s .failure).1.keyPoints = s.keyPoints ∧
      (fetchKeyPoints s .failure).1.queryResponse = s.queryResponse) ∧
    (jsTrim s.query ≠ "" →
      (handleQuerySubmit s .failure).1.error = some "Failed to query the document." ∧
      (handleQuerySubmit s .failure).1.summary = s.summary ∧
      (handleQuerySubmit s .failure).1.keyPoints = s.keyPoints ∧
      (handleQuerySubmit s .failure).1.queryResponse = s.queryResponse) ∧
    ("Failed to load document summary." ≠ "Failed to load document key points." ∧
      "Failed to load document summary." ≠ "Failed to query the document." ∧
      "Failed to load document key points." ≠ "Failed to query the document.") := by
  refine ⟨?_, ?_, ?_, by decide⟩
  · simp [fetchSummary, h]
  · simp [fetchKeyPoints, h]
  · intro hq
    have hq2 : (jsTrim s.query == "") = false := by simp [hq]
    simp [handleQuerySubmit, h, hq2]

/-- Witness for C7: in the concrete eligible state a failing query fetch
stores the query-specific message and keeps the stored summary artifact. -/
theorem tab_scoped_error_frame_witness :
    (handleQuerySubmit sEligible .failure).1.error = some "Failed to query the document." ∧
    (handleQuerySubmit sEligible .failure).1.summary = sEligible.summary :=
  ⟨((tab_scoped_error_frame sEligible rfl).2.2.1 (by decide)).1,
    ((tab_scoped_error_frame sEligible rfl).2.2.1 (by decide)).2.1⟩

/-- The trace refuting claim C2: the document loads once (one metadata
request), the tab effect fetches the summary for the initially active Summary
tab, the user switches to KeyPoints and back to Summary.  The identifier
never changes and metadata is never reloaded. -/
def esC2 : List DVEvent :=
  [ .infoResult (.success infoA),
    .tabEffectFire (.success sumA) .failure,
    .selectTab .keyPoints .failure (.success kpA),
    .selectTab .summary (.success sumA) .failure ]

/-- Counterexample to C2: over the Summary → KeyPoints → Summary switch for
one fixed loaded document, two summary requests are issued in total — the
re-entry into the Summary tab re-fetches, contradicting the claim that an
already-visited tab is never fetched a second time. -/
theorem tab_reentry_counterexample :
    (dvRun (DVState.init (some "doc-1")) esC2).2 =
      [Req.infoR, Req.summaryR, Req.keyPointsR, Req.summaryR] ∧
    (dvRun (DVState.init (some "doc-1")) esC2).2.count Req.summaryR = 2 ∧
    (dvRun (DVState.init (some "doc-1")) esC2).1.documentId = some "doc-1" := by
  refine ⟨by decide, by decide, by decide⟩

/-- Claim C2 as amended: selecting the already-active tab issues no request,
but entering the Summary or KeyPoints tab from a different tab while eligible
issues exactly one request for that artifact every time it is entered — there
is no caching, so re-entering an already-visited tab re-fetches its
artifact. -/
theorem tab_reentry_refetches (s : DVState) (so : FetchOutcome Summary)
    (ko : FetchOutcome KeyPointsResponse) :
    dvStep s (.selectTab s.activeTab so ko) = (s, []) ∧
    (eligible s = true → s.activeTab ≠ .summary →
      (dvStep s (.selectTab .summary so ko)).2 = [Req.summaryR]) ∧
    (eligible s = true → s.activeTab ≠ .keyPoints →
      (dvStep s (.selectTab .keyPoints so ko)).2 = [Req.keyPointsR]) := by
  refine ⟨by simp [dvStep], ?_, ?_⟩
  · intro he hne
    have hc : docInfoComplete s = true := by
      have := he
      rw [eligible, Bool.and_eq_true] at this
      exact this.2
    have hne2 : ¬(DVTab.summary = s.activeTab) := fun hh => hne hh.symm
    cases so <;>
      simp [dvStep, hne2, tabFetchEffect, docInfoComplete_setTab, hc, fetchSummary,
        eligible_setTab, he]
  · intro he hne
    have hc : docInfoComplete s = true := by
      have := he
      rw [eligible, Bool.and_eq_true] at this
      exact this.2
    have hne2 : ¬(DVTab.keyPoints = s.activeTab) := fun hh => hne hh.symm
    cases ko <;>
      simp [dvStep, hne2, tabFetchEffect, docInfoComplete_setTab, hc, fetchKeyPoints,
        eligible_setTab, he]

/-- Witness for the amended C2: from the eligible state on the query tab,
entering the Summary tab issues exactly one summary request. -/
theorem tab_reentry_refetches_witness :
    (dvStep sEligible (.selectTab .summary (.success sumA) .failure)).2 = [Req.summaryR] :=
  (tab_reentry_refetches sEligible (.success sumA) .failure).2.1 rfl (by decide)

/-- The trace refuting claim C6: metadata for `doc-1` loads successfully,
the route navigates to `doc-2` (component state persists), and the metadata
fetch for `doc-2` fails. -/
def esC6 : List DVEvent :=
  [ .infoResult (.success infoA),
    .changeDoc "doc-2",
    .infoResult .failure ]

/-- Counterexample to C6: after the failing metadata fetch (the second
metadata request of the trace) the stored DocumentDetail is not null — it
still holds the previous document's detail, while the generic error message
is shown.  The claim that failure leaves the stored DocumentDetail null is
false whenever an earlier fetch had populated it. -/
theorem metadata_failure_counterexample :
    (dvRun (DVState.init (some "doc-1")) esC6).2 = [Req.infoR, Req.infoR] ∧
    (dvRun (DVState.init (some "doc-1")) esC6).1.error =
      some "Failed to load document information." ∧
    (dvRun (DVState.init (some "doc-1")) esC6).1.documentInfo = some infoA ∧
    some infoA ≠ (none : Option DocumentInfo) := by
  refine ⟨by decide, by decide, by decide, by simp⟩

/-- Claim C6 as amended: for every metadata fetch that is actually issued
(identifier present), success replaces the stored DocumentDetail wholesale
with the response, while failure leaves the stored DocumentDetail unchanged —
hence still null when no earlier fetch had succeeded — and shows the generic
error message. -/
theorem metadata_fetch_success_and_failure (s : DVState) (d : DocumentInfo)
    (h : s.documentId.isSome = true) :
    fetchDocumentInfo s (.success d) =
      ({ s with documentInfo := some d, error := none, isLoading := false }, true) ∧
    fetchDocumentInfo s .failure =
      ({ s with error := some "Failed to load document information.", isLoading := false },
        true) := by
  constructor <;> simp [fetchDocumentInfo, h]

/-- Witness for the amended C6 at the freshly mounted state: the failing
initial fetch leaves the detail at its current (null) value. -/
theorem metadata_fetch_success_and_failure_witness :
    fetchDocumentInfo (DVState.init (some "doc-1")) .failure =
      ({ DVState.init (some "doc-1") with
          error := some "Failed to load document information.", isLoading := false }, true) :=
  (metadata_fetch_success_and_failure (DVState.init (some "doc-1")) infoA rfl).2

/-- The trace refuting claim C8: `doc-1` loads, its summary is fetched by
the tab effect, then the route navigates to `doc-2`. -/
def esC8 : List DVEvent :=
  [ .infoResult (.success infoA),
    .tabEffectFire (.success sumA) .failure,
    .changeDoc "doc-2" ]

/-- Counterexample to C8: in the reached state a summary artifact is present
but pertains to the previously viewed document `doc-1`, while the active
document identifier is `doc-2` — nothing discards the artifact when the
identifier changes. -/
theorem stale_summary_counterexample :
    (dvRun (DVState.init (some "doc-1")) esC8).1.summary = some sumA ∧
    (dvRun (DVState.init (some "doc-1")) esC8).1.documentId = some "doc-2" ∧
    sumA.document_id = "doc-1" ∧ ("doc-1" : String) ≠ "doc-2" := by
  refine ⟨by decide, by decide, by decide, by decide⟩

theorem dvStep_summary (s : DVState) (e : DVEvent) :
    (dvStep s e).1.summary = s.summary ∨
    (∃ x, (dvStep s e).1.summary = some x ∧ summaryPayload e = some x) := by
  cases e with
  | infoResult o =>
      left
      cases o <;> by_cases h : s.documentId.isSome <;> simp [dvStep, fetchDocumentInfo, h]
  | tabEffectFire so ko =>
      by_cases hc : docInfoComplete s
      · cases ht : s.activeTab with
        | summary =>
            cases so with
            | success x =>
                by_cases he : eligible s
                · right
                  exact ⟨x, by simp [dvStep, tabFetchEffect, hc, ht, fetchSummary, he],
                    by simp [summaryPayload]⟩
                · left
                  simp [dvStep, tabFetchEffect, hc, ht, fetchSummary, he]
            | failure =>
                left
                by_cases he : eligible s <;>
                  simp [dvStep, tabFetchEffect, hc, ht, fetchSummary, he]
        | keyPoints =>
            left
            cases ko <;> by_cases he : eligible s <;>
              simp [dvStep, tabFetchEffect, hc, ht, fetchKeyPoints, he]
        | query =>
            left
            simp [dvStep, tabFetchEffect, hc, ht]
      · left
        simp [dvStep, tabFetchEffect, hc]
  | selectTab t so ko =>
      by_cases hteq : t = s.activeTab
      · left
        simp [dvStep, hteq]
      · by_cases hc : docInfoComplete s
        · cases t with
          | summary =>
              cases so with
              | success x =>
                  by_cases he : eligible s
                  · right
                    refine ⟨x, ?_, by simp [summaryPayload]⟩
                    simp [dvStep, hteq, tabFetchEffect, docInfoComplete_setTab, hc,
                      fetchSummary, eligible_setTab, he]
                  · left
                    simp [dvStep, hteq, tabFetchEffect, docInfoComplete_setTab, hc,
                      fetchSummary, eligible_setTab, he]
              | failure =>
                  left
                  by_cases he : eligible s <;>
                    simp [dvStep, hteq, tabFetchEffect, docInfoComplete_setTab, hc,
                      fetchSummary, eligible_setTab, he]
          | keyPoints =>
              left
              cases ko <;> by_cases he : eligible s <;>
                simp [dvStep, hteq, tabFetchEffect, docInfoComplete_setTab, hc,
                  fetchKeyPoints, eligible_setTab, he]
          | query =>
              left
              simp [dvStep, hteq, tabFetchEffect, docInfoComplete_setTab, hc]
        · left
          simp [dvStep, hteq, tabFetchEffect, docInfoComplete_setTab, hc]
  | querySubmit o =>
      left
      cases o <;> by_cases hg : (!(jsTrim s.query == "") && eligible s) = true <;>
        simp [dvStep, handleQuerySubmit, hg]
  | setQueryText q =>
      left
      rfl
  | changeDoc i =>
      left
      rfl

/-- Claim C8 as amended: a summary artifact is initially absent and can only
come into existence through a successful summary fetch carrying exactly that
artifact; a change of the document identifier does not discard it — the
stored artifact persists across identifier changes until overwritten by a
later successful summary fetch, so it may pertain to a previously viewed
document. -/
theorem summary_provenance :
    (∀ d, (DVState.init d).summary = none) ∧
    (∀ (s : DVState) (i : String), (dvStep s (.changeDoc i)).1.summary = s.summary) ∧
    (∀ (s : DVState) (es : List DVEvent) (x : Summary),
      (dvRun s es).1.summary = some x →
      s.summary = some x ∨ ∃ e ∈ es, summaryPayload e = some x) := by
  refine ⟨fun d => rfl, fun s i => rfl, ?_⟩
  intro s es x
  induction es generalizing s with
  | nil => exact fun h => Or.inl h
  | cons e es ih =>
      intro h
      have h2 : (dvRun (dvStep s e).1 es).1.summary = some x := h
      rcases ih (dvStep s e).1 h2 with hmid | ⟨e2, he2, hp⟩
      · rcases dvStep_summary s e with hkeep | ⟨y, hy, hpay⟩
        · left
          rw [← hkeep]
          exact hmid
        · right
          have hxy : y = x := by
            rw [hy] at hmid
            exact Option.some.inj hmid
          exact ⟨e, List.mem_cons_self e es, by rw [hpay, hxy]⟩
      · right
        exact ⟨e2, List.mem_cons_of_mem e he2, hp⟩

/-- A concrete state with metadata for `doc-1` loaded and nothing fetched
yet. -/
def sInfoLoaded : DVState :=
  { DVState.init (some "doc-1") with documentInfo := some infoA, isLoading := false }

/-- Witness for the amended C8: after a run in which the tab effect fetches
the summary successfully, the stored artifact is traced back to the carrying
event of the run. -/
theorem summary_provenance_witness :
    sInfoLoaded.summary = some sumA ∨
    ∃ e ∈ [DVEvent.tabEffectFire (.success sumA) .failure], summaryPayload e = some sumA :=
  summary_provenance.2.2 sInfoLoaded [DVEvent.tabEffectFire (.success sumA) .failure] sumA rfl
